import Mathlib

/-!
Shallow embedding of the Bluetooth core of the `renik` crate
(`src/bluetooth.rs`): device records, the bounded device list, the
connection-phase finite state machine, and the validated connection
handle. Machine integers are modelled as `Nat` with an explicit
`% 2^w` where overflow matters; fixed-size byte arrays are modelled as
`List Nat`; fallible `&mut self` methods return the `Except` result
paired with the post-state, so that "unchanged on failure" is a
provable statement.
-/

namespace Renik

/-- `Error` from `src/error.rs`. -/
inductive Error
  | CredentialLengthExceeded
  | IdentityLengthExceeded
  | InvalidBluetoothDeviceInfo
  | DeviceListFull
  | IndexOutOfBounds
deriving DecidableEq, Repr

def BLUETOOTH_CONFIG_MAGIC : Nat := 0x42544C45

def BLUETOOTH_DEVICE_LIST_MAGIC : Nat := 0x42544C53

def BLUETOOTH_CONNECTION_STATE_MAGIC : Nat := 0x42544353

/-- `ConnHandle(u16)`: transparent wrapper around a raw 16-bit handle. -/
structure ConnHandle where
  val : Nat
deriving DecidableEq, Repr

/-- `ConnHandle::new`: the source asserts `val <= 0x0EFF` and aborts
(panics) otherwise; the abort is modelled as `none`, i.e. construction
fails without returning a handle. -/
def ConnHandle.new (v : Nat) : Option ConnHandle :=
  if v ≤ 0x0EFF then some ⟨v⟩ else none

/-- `ConnHandle::raw`. -/
def ConnHandle.raw (h : ConnHandle) : Nat := h.val

/-- `impl From<u16> for ConnHandle` delegates to `ConnHandle::new`. -/
def connHandleFromU16 (v : Nat) : Option ConnHandle := ConnHandle.new v

/-- `impl From<ConnHandle> for u16` returns `handle.raw()`. -/
def u16FromConnHandle (h : ConnHandle) : Nat := h.raw

/-- `Default` for `ConnHandle` (derived): raw value `0`. -/
def ConnHandle.default : ConnHandle := ⟨0⟩

/-- `BluetoothConnectionParams` (padding field omitted; it is
layout-only and always zero). -/
structure BluetoothConnectionParams where
  connection_handle : ConnHandle
  connection_interval : Nat
  connection_latency : Nat
  supervision_timeout : Nat
  master_clock_accuracy : Nat
  link_type : Nat
  encryption_enabled : Nat
  rssi : Int
  connected_at : Nat
  last_activity : Nat
deriving DecidableEq, Repr

/-- `Default for BluetoothConnectionParams`. -/
def BluetoothConnectionParams.default : BluetoothConnectionParams :=
  { connection_handle := ConnHandle.default
    connection_interval := 0
    connection_latency := 0
    supervision_timeout := 0
    master_clock_accuracy := 0
    link_type := 0
    encryption_enabled := 0
    rssi := -127
    connected_at := 0
    last_activity := 0 }

/-- `BluetoothSecurityInfo` (padding field omitted). -/
structure BluetoothSecurityInfo where
  link_key : List Nat
  link_key_type : Nat
  auth_requirements : Nat
  io_capabilities : Nat
  security_level : Nat
  pin_length : Nat
  link_key_valid : Nat
  authenticated : Nat
  encrypted : Nat
  ssp_supported : Nat
  mitm_required : Nat
deriving DecidableEq, Repr

/-- `Default for BluetoothSecurityInfo`. -/
def BluetoothSecurityInfo.default : BluetoothSecurityInfo :=
  { link_key := List.replicate 16 0
    link_key_type := 0
    auth_requirements := 0
    io_capabilities := 0
    security_level := 1
    pin_length := 0
    link_key_valid := 0
    authenticated := 0
    encrypted := 0
    ssp_supported := 0
    mitm_required := 0 }

/-- `BluetoothDeviceInfo` (padding fields omitted). `device_name` and
`pairing_key` model the fixed `[u8; 32]` / `[u8; 64]` buffers. -/
structure BluetoothDeviceInfo where
  magic : Nat
  mac_address : List Nat
  device_name : List Nat
  device_name_len : Nat
  pairing_key : List Nat
  pairing_key_len : Nat
  class_of_device : List Nat
  device_type : Nat
  flags : Nat
  connection_count : Nat
  last_seen : Nat
  last_connected : Nat
  connection_params : BluetoothConnectionParams
  security_info : BluetoothSecurityInfo
  vendor_id : Nat
  product_id : Nat
  version : Nat
deriving DecidableEq, Repr

/-- `Default for BluetoothDeviceInfo`. -/
def BluetoothDeviceInfo.default : BluetoothDeviceInfo :=
  { magic := BLUETOOTH_CONFIG_MAGIC
    mac_address := List.replicate 6 0
    device_name := List.replicate 32 0
    device_name_len := 0
    pairing_key := List.replicate 64 0
    pairing_key_len := 0
    class_of_device := List.replicate 3 0
    device_type := 0
    flags := 0
    connection_count := 0
    last_seen := 0
    last_connected := 0
    connection_params := BluetoothConnectionParams.default
    security_info := BluetoothSecurityInfo.default
    vendor_id := 0
    product_id := 0
    version := 0 }

namespace BluetoothDeviceInfo

def DEVICE_TYPE_UNKNOWN : Nat := 0

def DEVICE_TYPE_COMPUTER : Nat := 1

def DEVICE_TYPE_PHONE : Nat := 2

def DEVICE_TYPE_NETWORK : Nat := 3

def DEVICE_TYPE_AUDIO : Nat := 4

def DEVICE_TYPE_PERIPHERAL : Nat := 5

def DEVICE_TYPE_IMAGING : Nat := 6

def DEVICE_TYPE_WEARABLE : Nat := 7

def DEVICE_TYPE_TOY : Nat := 8

def FLAG_PAIRED : Nat := 0x01

def FLAG_TRUSTED : Nat := 0x02

def FLAG_AUDIO : Nat := 0x04

def FLAG_INPUT : Nat := 0x08

def FLAG_FILE_TRANSFER : Nat := 0x10

def FLAG_CONNECTED : Nat := 0x20

def FLAG_AUTO_RECONNECT : Nat := 0x40

def FLAG_RECENTLY_DISCOVERED : Nat := 0x80

/-- `set_device_name`: rejects names longer than 32 bytes; otherwise
stores the length, zero-fills the 32-byte buffer and copies the name
into its prefix (`fill(0)` then `copy_from_slice`). Returns the
`Result` paired with the post-state. -/
def set_device_name (d : BluetoothDeviceInfo) (device_name : List Nat) :
    Except Error Unit × BluetoothDeviceInfo :=
  if device_name.length > 32 then (.error .InvalidBluetoothDeviceInfo, d)
  else (.ok (), { d with
    device_name_len := device_name.length
    device_name := device_name ++ List.replicate (32 - device_name.length) 0 })

/-- `set_pairing_key`: same shape as `set_device_name` with capacity 64. -/
def set_pairing_key (d : BluetoothDeviceInfo) (pairing_key : List Nat) :
    Except Error Unit × BluetoothDeviceInfo :=
  if pairing_key.length > 64 then (.error .InvalidBluetoothDeviceInfo, d)
  else (.ok (), { d with
    pairing_key_len := pairing_key.length
    pairing_key := pairing_key ++ List.replicate (64 - pairing_key.length) 0 })

/-- The `match major_class { .. }` mapping inside `set_class_of_device`. -/
def deviceTypeOfMajorClass (major_class : Nat) : Nat :=
  match major_class with
  | 1 => DEVICE_TYPE_COMPUTER
  | 2 => DEVICE_TYPE_PHONE
  | 3 => DEVICE_TYPE_NETWORK
  | 4 => DEVICE_TYPE_AUDIO
  | 5 => DEVICE_TYPE_PERIPHERAL
  | 6 => DEVICE_TYPE_IMAGING
  | 7 => DEVICE_TYPE_WEARABLE
  | 8 => DEVICE_TYPE_TOY
  | _ => DEVICE_TYPE_UNKNOWN

/-- `set_class_of_device`: stores the three bytes and re-derives
`device_type` from the major class `(class_of_device[1] >> 2) & 0x1F`. -/
def set_class_of_device (d : BluetoothDeviceInfo) (c0 c1 c2 : Nat) :
    BluetoothDeviceInfo :=
  let major_class := (c1 >>> 2) &&& 0x1F
  { d with
    class_of_device := [c0, c1, c2]
    device_type := deviceTypeOfMajorClass major_class }

/-- `add_flag`: bitwise OR into the flags byte. -/
def add_flag (d : BluetoothDeviceInfo) (flag : Nat) : BluetoothDeviceInfo :=
  { d with flags := d.flags ||| flag }

/-- `has_flag`. -/
def has_flag (d : BluetoothDeviceInfo) (flag : Nat) : Bool :=
  (d.flags &&& flag) != 0

/-- `update_connection_params`: replaces the embedded params, performs
`self.connection_count += 1` — a plain `u32` addition, modelled with the
explicit wraparound `% 2^32` — and ORs in `FLAG_CONNECTED`. -/
def update_connection_params (d : BluetoothDeviceInfo)
    (params : BluetoothConnectionParams) : BluetoothDeviceInfo :=
  let d1 := { d with connection_params := params }
  let d2 := { d1 with connection_count := (d1.connection_count + 1) % 2 ^ 32 }
  d2.add_flag FLAG_CONNECTED

/-- `set_connection_count`. -/
def set_connection_count (d : BluetoothDeviceInfo) (count : Nat) :
    BluetoothDeviceInfo :=
  { d with connection_count := count }

/-- `increment_connection_count`: `saturating_add(1)` on a `u32`. -/
def increment_connection_count (d : BluetoothDeviceInfo) :
    BluetoothDeviceInfo :=
  { d with connection_count := min (d.connection_count + 1) (2 ^ 32 - 1) }

end BluetoothDeviceInfo

/-- `BluetoothDeviceList` (padding omitted). `devices` models the
`[BluetoothDeviceInfo; 10]` array, so its length is 10 in every
well-formed list; bounds checks compare against `devices.length` just
as the source compares against `self.devices.len()`. -/
structure BluetoothDeviceList where
  magic : Nat
  devices : List BluetoothDeviceInfo
  device_count : Nat
deriving DecidableEq, Repr

/-- `Default for BluetoothDeviceList`: magic set, ten default slots,
count zero. -/
def BluetoothDeviceList.default : BluetoothDeviceList :=
  { magic := BLUETOOTH_DEVICE_LIST_MAGIC
    devices := List.replicate 10 BluetoothDeviceInfo.default
    device_count := 0 }

namespace BluetoothDeviceList

/-- `add_device`: full when `device_count >= devices.len()`; otherwise
writes into slot `device_count` and increments the count. -/
def add_device (l : BluetoothDeviceList) (device_config : BluetoothDeviceInfo) :
    Except Error Unit × BluetoothDeviceList :=
  if l.device_count ≥ l.devices.length then (.error .DeviceListFull, l)
  else (.ok (), { l with
    devices := l.devices.set l.device_count device_config
    device_count := l.device_count + 1 })

/-- The `for i in index..(device_count - 1) { devices[i] = devices[i+1] }`
shift loop inside `remove_device`, as a tail-recursive function on the
slot list. -/
def shiftLoop (ds : List BluetoothDeviceInfo) (i stop : Nat) :
    List BluetoothDeviceInfo :=
  if i < stop then
    shiftLoop (ds.set i (ds.getD (i + 1) BluetoothDeviceInfo.default)) (i + 1) stop
  else ds
termination_by stop - i

/-- `remove_device`: out of bounds when `index >= device_count`;
otherwise shifts every later element one slot toward the front and
decrements the count. The vacated tail slots are not cleared. -/
def remove_device (l : BluetoothDeviceList) (index : Nat) :
    Except Error Unit × BluetoothDeviceList :=
  if index ≥ l.device_count then (.error .IndexOutOfBounds, l)
  else (.ok (), { l with
    devices := shiftLoop l.devices index (l.device_count - 1)
    device_count := l.device_count - 1 })

/-- `get_device`: out of bounds when `index >= device_count`. -/
def get_device (l : BluetoothDeviceList) (index : Nat) :
    Except Error BluetoothDeviceInfo :=
  if index ≥ l.device_count then .error .IndexOutOfBounds
  else .ok (l.devices.getD index BluetoothDeviceInfo.default)

/-- `len`. -/
def len (l : BluetoothDeviceList) : Nat := l.device_count

/-- `is_empty`. -/
def is_empty (l : BluetoothDeviceList) : Bool := l.device_count == 0

end BluetoothDeviceList

/-- `BluetoothConnectionPhase`, 13 phases with `repr(u8)` discriminants
0..12. -/
inductive BluetoothConnectionPhase
  | Idle
  | Discovery
  | Connecting
  | Connected
  | Authenticating
  | SettingUpEncryption
  | FullyConnected
  | ServiceDiscovery
  | Ready
  | Maintaining
  | Reconnecting
  | Failed
  | Disconnecting
deriving DecidableEq, Repr

/-- The `repr(u8)` discriminant of a phase (the Rust `phase as u8`). -/
def BluetoothConnectionPhase.toU8 : BluetoothConnectionPhase → Nat
  | .Idle => 0
  | .Discovery => 1
  | .Connecting => 2
  | .Connected => 3
  | .Authenticating => 4
  | .SettingUpEncryption => 5
  | .FullyConnected => 6
  | .ServiceDiscovery => 7
  | .Ready => 8
  | .Maintaining => 9
  | .Reconnecting => 10
  | .Failed => 11
  | .Disconnecting => 12

/-- `BluetoothConnectionState` (padding omitted); `connection_phase` is
the stored phase byte. -/
structure BluetoothConnectionState where
  magic : Nat
  device_config : BluetoothDeviceInfo
  connection_flags : Nat
  link_quality : Nat
  connection_phase : Nat
deriving DecidableEq, Repr

/-- `Default for BluetoothConnectionState`. -/
def BluetoothConnectionState.default : BluetoothConnectionState :=
  { magic := BLUETOOTH_CONNECTION_STATE_MAGIC
    device_config := BluetoothDeviceInfo.default
    connection_flags := 0
    link_quality := 0
    connection_phase := BluetoothConnectionPhase.Idle.toU8 }

namespace BluetoothConnectionState

/-- `get_connection_phase`: decodes the stored byte, defaulting to
`Idle` for `0` and for every invalid value. -/
def get_connection_phase (s : BluetoothConnectionState) :
    BluetoothConnectionPhase :=
  match s.connection_phase with
  | 1 => .Discovery
  | 2 => .Connecting
  | 3 => .Connected
  | 4 => .Authenticating
  | 5 => .SettingUpEncryption
  | 6 => .FullyConnected
  | 7 => .ServiceDiscovery
  | 8 => .Ready
  | 9 => .Maintaining
  | 10 => .Reconnecting
  | 11 => .Failed
  | 12 => .Disconnecting
  | _ => .Idle

/-- `set_connection_phase`: stores `phase as u8`. -/
def set_connection_phase (s : BluetoothConnectionState)
    (phase : BluetoothConnectionPhase) : BluetoothConnectionState :=
  { s with connection_phase := phase.toU8 }

/-- `is_valid_transition`: the per-phase rule table. -/
def is_valid_transition (current next : BluetoothConnectionPhase) : Bool :=
  match current with
  | .Idle => next == .Discovery || next == .Connecting
  | .Discovery => next == .Connecting
  | .Connecting => next == .Connected || next == .Failed
  | .Connected =>
      next == .Authenticating || next == .ServiceDiscovery || next == .Disconnecting
  | .Authenticating =>
      next == .SettingUpEncryption || next == .Failed || next == .Disconnecting
  | .SettingUpEncryption =>
      next == .FullyConnected || next == .Failed || next == .Disconnecting
  | .FullyConnected =>
      next == .ServiceDiscovery || next == .Ready || next == .Disconnecting
  | .ServiceDiscovery =>
      next == .Ready || next == .Failed || next == .Disconnecting
  | .Ready => next == .Maintaining || next == .Disconnecting
  | .Maintaining => next == .Reconnecting || next == .Disconnecting
  | .Reconnecting => next == .Connecting || next == .Failed
  | .Failed => next == .Reconnecting
  | .Disconnecting => false

/-- `advance_to_phase`: valid iff the target is `Idle` or the table row
for the current phase allows it; updates the phase byte only when
valid. Returns the reported `bool` paired with the post-state. -/
def advance_to_phase (s : BluetoothConnectionState)
    (next_phase : BluetoothConnectionPhase) :
    Bool × BluetoothConnectionState :=
  let current := s.get_connection_phase
  let valid_transition :=
    next_phase == .Idle || is_valid_transition current next_phase
  if valid_transition then (true, s.set_connection_phase next_phase)
  else (false, s)

end BluetoothConnectionState

/-- The transition table exactly as the specification lists it
(spec section 4.3), written from the spec's rows — the refinement
counterpart of `is_valid_transition`. -/
def specAllowedNext : BluetoothConnectionPhase → List BluetoothConnectionPhase
  | .Idle => [.Discovery, .Connecting]
  | .Discovery => [.Connecting]
  | .Connecting => [.Connected, .Failed]
  | .Connected => [.Authenticating, .ServiceDiscovery, .Disconnecting]
  | .Authenticating => [.SettingUpEncryption, .Failed, .Disconnecting]
  | .SettingUpEncryption => [.FullyConnected, .Failed, .Disconnecting]
  | .FullyConnected => [.ServiceDiscovery, .Ready, .Disconnecting]
  | .ServiceDiscovery => [.Ready, .Failed, .Disconnecting]
  | .Ready => [.Maintaining, .Disconnecting]
  | .Maintaining => [.Reconnecting, .Disconnecting]
  | .Reconnecting => [.Connecting, .Failed]
  | .Failed => [.Reconnecting]
  | .Disconnecting => []

/-- Device-list states reachable from the empty (default) list by any
sequence of `add_device` / `remove_device` calls (the post-state is
taken whether the call succeeded or failed). -/
inductive ReachableList : BluetoothDeviceList → Prop
  | init : ReachableList BluetoothDeviceList.default
  | add (l : BluetoothDeviceList) (d : BluetoothDeviceInfo) :
      ReachableList l → ReachableList (l.add_device d).2
  | remove (l : BluetoothDeviceList) (i : Nat) :
      ReachableList l → ReachableList (l.remove_device i).2

/-- A sample record distinguished by its vendor id, for concrete
witnesses. -/
def sampleRecord (vid : Nat) : BluetoothDeviceInfo :=
  { BluetoothDeviceInfo.default with vendor_id := vid }

/-- A three-element device list built by three `add_device` calls. -/
def sampleList3 : BluetoothDeviceList :=
  (((BluetoothDeviceList.default.add_device (sampleRecord 1)).2.add_device
      (sampleRecord 2)).2.add_device (sampleRecord 3)).2

/-! ## Helper lemmas -/

/-- `advance_to_phase` unfolded to a single conditional. -/
theorem advance_to_phase_eq (s : BluetoothConnectionState)
    (next : BluetoothConnectionPhase) :
    s.advance_to_phase next =
      if (next == BluetoothConnectionPhase.Idle ||
          BluetoothConnectionState.is_valid_transition s.get_connection_phase next)
          = true
      then (true, s.set_connection_phase next)
      else (false, s) := rfl

/-- The code's validity test agrees with membership in the spec's
transition table (refinement of `is_valid_transition` against
`specAllowedNext`), with the universal transition to `Idle` on top. -/
theorem valid_transition_iff_spec (c next : BluetoothConnectionPhase) :
    (next == BluetoothConnectionPhase.Idle ||
      BluetoothConnectionState.is_valid_transition c next) = true ↔
    (next = BluetoothConnectionPhase.Idle ∨ next ∈ specAllowedNext c) := by
  cases c <;> cases next <;> decide

/-- Decoding the stored byte of a just-stored phase gives that phase
back. -/
theorem get_set_connection_phase (s : BluetoothConnectionState)
    (p : BluetoothConnectionPhase) :
    (s.set_connection_phase p).get_connection_phase = p := by
  cases p <;> rfl

/-- Every byte of a zero-filled-then-copied buffer past the logical
length is zero. -/
theorem buffer_tail_zero (input : List Nat) (cap j : Nat)
    (hj : input.length ≤ j) :
    (input ++ List.replicate (cap - input.length) 0).getD j 0 = 0 := by
  rw [List.getD_eq_getElem?_getD, List.getElem?_append_right hj,
    List.getElem?_replicate]
  split <;> rfl

/-- The prefix of a zero-filled-then-copied buffer is the copied input. -/
theorem buffer_take (input : List Nat) (cap : Nat) :
    (input ++ List.replicate (cap - input.length) 0).take input.length = input :=
  List.take_left input _

/-- The shift loop preserves the slot-array length. -/
theorem shiftLoop_length (ds : List BluetoothDeviceInfo) (i stop : Nat) :
    (BluetoothDeviceList.shiftLoop ds i stop).length = ds.length := by
  unfold BluetoothDeviceList.shiftLoop
  split
  case isTrue h =>
    rw [shiftLoop_length]
    exact List.length_set ds i _
  case isFalse h => rfl
termination_by stop - i

/-- Element-wise effect of the shift loop: slots in `[i, stop)` take the
value of their right neighbour, every other slot is untouched. -/
theorem shiftLoop_getD (ds : List BluetoothDeviceInfo) (i stop j : Nat)
    (hstop : stop < ds.length) :
    (BluetoothDeviceList.shiftLoop ds i stop).getD j BluetoothDeviceInfo.default =
      if i ≤ j ∧ j < stop then ds.getD (j + 1) BluetoothDeviceInfo.default
      else ds.getD j BluetoothDeviceInfo.default := by
  unfold BluetoothDeviceList.shiftLoop
  split
  case isTrue h =>
    rw [shiftLoop_getD _ _ _ _ (by simpa using hstop)]
    by_cases hij : j = i
    · subst hij
      rw [if_neg (by omega), if_pos ⟨Nat.le_refl j, h⟩]
      rw [List.getD_eq_getElem?_getD, List.getElem?_set, if_pos rfl,
        if_pos (by omega)]
      rfl
    · by_cases hc : i + 1 ≤ j ∧ j < stop
      · rw [if_pos hc, if_pos (by omega), List.getD_eq_getElem?_getD,
          List.getElem?_set_ne (by omega), ← List.getD_eq_getElem?_getD]
      · rw [if_neg hc, if_neg (by omega), List.getD_eq_getElem?_getD,
          List.getElem?_set_ne (by omega), ← List.getD_eq_getElem?_getD]
  case isFalse h =>
    rw [if_neg (by omega)]
termination_by stop - i

/-- Structural invariant of reachable device lists: the slot array
keeps its fixed length 10 and the count never exceeds it. -/
theorem reachable_wf (l : BluetoothDeviceList) (h : ReachableList l) :
    l.devices.length = 10 ∧ l.device_count ≤ 10 := by
  induction h with
  | init => exact ⟨by simp [BluetoothDeviceList.default], Nat.le_refl 0 |>.trans (by omega)⟩
  | add l d _ ih =>
    unfold BluetoothDeviceList.add_device
    split
    case isTrue => exact ih
    case isFalse h2 =>
      refine ⟨by simpa using ih.1, ?_⟩
      have := ih.1
      simp only at *
      omega
  | remove l i _ ih =>
    unfold BluetoothDeviceList.remove_device
    split
    case isTrue => exact ih
    case isFalse h2 =>
      refine ⟨?_, ?_⟩
      · simpa [shiftLoop_length] using ih.1
      · have := ih.2
        simp only at *
        omega

/-! ## Claim theorems -/

/-- C1: the claim states that `update_connection_params` increments the
connection counter saturating at `u32::MAX`, never wrapping. On a
record whose counter is already `u32::MAX = 2^32 - 1`, the code's plain
`+= 1` wraps the counter to `0` — while the crate's own saturating
increment, `increment_connection_count`, keeps it at `2^32 - 1`. The
code therefore contradicts the stated (and elsewhere implemented)
saturation behaviour at this input. -/
theorem C1_connection_count_wraps_at_u32_max :
    ((BluetoothDeviceInfo.default.set_connection_count
        (2 ^ 32 - 1)).update_connection_params
        BluetoothConnectionParams.default).connection_count = 0 ∧
    ((BluetoothDeviceInfo.default.set_connection_count
        (2 ^ 32 - 1)).increment_connection_count).connection_count = 2 ^ 32 - 1 ∧
    (0 : Nat) ≠ 2 ^ 32 - 1 := by
  refine ⟨?_, ?_, by decide⟩
  · simp [BluetoothDeviceInfo.update_connection_params,
      BluetoothDeviceInfo.set_connection_count, BluetoothDeviceInfo.add_flag]
  · simp [BluetoothDeviceInfo.increment_connection_count,
      BluetoothDeviceInfo.set_connection_count]

/-- C2: for every 16-bit value up to `0x0EFF`, `ConnHandle` construction
succeeds and round-trips through the raw value and the `u16`
conversions without change; for every 16-bit value above `0x0EFF`,
construction fails (the source's abort is modelled as `none`). -/
theorem C2_conn_handle_range_roundtrip (v : Nat) (hv : v < 2 ^ 16) :
    (v ≤ 0x0EFF →
      ConnHandle.new v = some ⟨v⟩ ∧
      ConnHandle.raw ⟨v⟩ = v ∧
      connHandleFromU16 (u16FromConnHandle ⟨v⟩) = some ⟨v⟩) ∧
    (0x0EFF < v → ConnHandle.new v = none) := by
  constructor
  · intro h
    refine ⟨?_, rfl, ?_⟩
    · simp [ConnHandle.new, h]
    · simp [connHandleFromU16, u16FromConnHandle, ConnHandle.new,
        ConnHandle.raw, h]
  · intro h
    simp [ConnHandle.new]
    omega

/-- Witness for C2 at the boundary values `0x0EFF` and `0x0F00`. -/
theorem C2_conn_handle_witness :
    ConnHandle.new 0x0EFF = some ⟨0x0EFF⟩ ∧ ConnHandle.new 0x0F00 = none :=
  ⟨((C2_conn_handle_range_roundtrip 0x0EFF (by decide)).1 (by decide)).1,
   (C2_conn_handle_range_roundtrip 0x0F00 (by decide)).2 (by decide)⟩

/-- C3: `advance_to_phase next` reports success exactly when `next` is
`Idle` or the spec's transition-table row for the current phase
contains `next`; on success the phase afterwards is `next`; in
particular the transition to `Idle` always succeeds and lands in
`Idle`. -/
theorem C3_advance_to_phase_success (s : BluetoothConnectionState)
    (next : BluetoothConnectionPhase) :
    ((s.advance_to_phase next).1 = true ↔
      (next = BluetoothConnectionPhase.Idle ∨
        next ∈ specAllowedNext s.get_connection_phase)) ∧
    ((s.advance_to_phase next).1 = true →
      (s.advance_to_phase next).2.get_connection_phase = next) ∧
    (s.advance_to_phase BluetoothConnectionPhase.Idle).1 = true ∧
    (s.advance_to_phase BluetoothConnectionPhase.Idle).2.get_connection_phase
      = BluetoothConnectionPhase.Idle := by
  refine ⟨?_, ?_, ?_, ?_⟩
  · rw [advance_to_phase_eq]
    split
    case isTrue h => simpa using (valid_transition_iff_spec _ _).mp h
    case isFalse h =>
      constructor
      · intro hT
        simp at hT
      · intro hR
        exact absurd ((valid_transition_iff_spec _ _).mpr hR) h
  · rw [advance_to_phase_eq]
    split
    case isTrue h =>
      intro _
      exact get_set_connection_phase s next
    case isFalse h =>
      intro hT
      simp at hT
  · rw [advance_to_phase_eq, if_pos (by simp)]
  · rw [advance_to_phase_eq, if_pos (by simp)]
    exact get_set_connection_phase s BluetoothConnectionPhase.Idle

/-- Witness for C3: from the default (idle) state, advancing to
`Discovery` succeeds and lands in `Discovery`. -/
theorem C3_witness :
    (BluetoothConnectionState.default.advance_to_phase
      BluetoothConnectionPhase.Discovery).1 = true ∧
    (BluetoothConnectionState.default.advance_to_phase
      BluetoothConnectionPhase.Discovery).2.get_connection_phase
      = BluetoothConnectionPhase.Discovery := by
  have h := C3_advance_to_phase_success BluetoothConnectionState.default
    BluetoothConnectionPhase.Discovery
  have hs : (BluetoothConnectionState.default.advance_to_phase
      BluetoothConnectionPhase.Discovery).1 = true :=
    h.1.mpr (Or.inr (by decide))
  exact ⟨hs, h.2.1 hs⟩

/-- C4: when the target phase is neither `Idle` nor in the table row of
the current phase, `advance_to_phase` reports failure and the whole
connection state is unchanged — every field, not just the phase byte. -/
theorem C4_advance_to_phase_rejection (s : BluetoothConnectionState)
    (next : BluetoothConnectionPhase)
    (h1 : next ≠ BluetoothConnectionPhase.Idle)
    (h2 : next ∉ specAllowedNext s.get_connection_phase) :
    (s.advance_to_phase next).1 = false ∧ (s.advance_to_phase next).2 = s := by
  have hb : ¬ ((next == BluetoothConnectionPhase.Idle ||
      BluetoothConnectionState.is_valid_transition s.get_connection_phase next)
      = true) := by
    intro hb
    rcases (valid_transition_iff_spec _ _).mp hb with h | h
    · exact h1 h
    · exact h2 h
  rw [advance_to_phase_eq, if_neg hb]
  exact ⟨rfl, rfl⟩

/-- Witness for C4: from the default (idle) state, advancing directly to
`Connected` is rejected and the state is unchanged. -/
theorem C4_witness :
    (BluetoothConnectionState.default.advance_to_phase
      BluetoothConnectionPhase.Connected).1 = false ∧
    (BluetoothConnectionState.default.advance_to_phase
      BluetoothConnectionPhase.Connected).2 = BluetoothConnectionState.default :=
  C4_advance_to_phase_rejection BluetoothConnectionState.default
    BluetoothConnectionPhase.Connected (by decide) (by decide)

/-- C5: `set_device_name` fails with `InvalidBluetoothDeviceInfo` iff
the input exceeds 32 bytes and `set_pairing_key` iff it exceeds 64; on
failure the record is returned untouched; on success the buffer prefix
equals the input, the length field equals the input length, and every
buffer byte past the logical length is zero. -/
theorem C5_set_name_and_pairing_key (d : BluetoothDeviceInfo)
    (input : List Nat) :
    (32 < input.length →
      d.set_device_name input = (.error .InvalidBluetoothDeviceInfo, d)) ∧
    (input.length ≤ 32 →
      (d.set_device_name input).1 = .ok () ∧
      ((d.set_device_name input).2.device_name).take input.length = input ∧
      (d.set_device_name input).2.device_name_len = input.length ∧
      ∀ j, input.length ≤ j →
        ((d.set_device_name input).2.device_name).getD j 0 = 0) ∧
    (64 < input.length →
      d.set_pairing_key input = (.error .InvalidBluetoothDeviceInfo, d)) ∧
    (input.length ≤ 64 →
      (d.set_pairing_key input).1 = .ok () ∧
      ((d.set_pairing_key input).2.pairing_key).take input.length = input ∧
      (d.set_pairing_key input).2.pairing_key_len = input.length ∧
      ∀ j, input.length ≤ j →
        ((d.set_pairing_key input).2.pairing_key).getD j 0 = 0) := by
  refine ⟨?_, ?_, ?_, ?_⟩
  · intro h
    simp [BluetoothDeviceInfo.set_device_name, h]
  · intro h
    have hc : ¬ (input.length > 32) := by omega
    refine ⟨by simp [BluetoothDeviceInfo.set_device_name, hc], ?_, ?_, ?_⟩
    · simp only [BluetoothDeviceInfo.set_device_name, if_neg hc]
      exact buffer_take input 32
    · simp [BluetoothDeviceInfo.set_device_name, hc]
    · intro j hj
      simp only [BluetoothDeviceInfo.set_device_name, if_neg hc]
      exact buffer_tail_zero input 32 j hj
  · intro h
    simp [BluetoothDeviceInfo.set_pairing_key, h]
  · intro h
    have hc : ¬ (input.length > 64) := by omega
    refine ⟨by simp [BluetoothDeviceInfo.set_pairing_key, hc], ?_, ?_, ?_⟩
    · simp only [BluetoothDeviceInfo.set_pairing_key, if_neg hc]
      exact buffer_take input 64
    · simp [BluetoothDeviceInfo.set_pairing_key, hc]
    · intro j hj
      simp only [BluetoothDeviceInfo.set_pairing_key, if_neg hc]
      exact buffer_tail_zero input 64 j hj

/-- Witness for C5 at the capacity boundaries: 33 bytes fail and leave
the record untouched, 32 bytes succeed; 65 bytes fail, 64 succeed. -/
theorem C5_witness :
    BluetoothDeviceInfo.default.set_device_name (List.replicate 33 7) =
      (.error .InvalidBluetoothDeviceInfo, BluetoothDeviceInfo.default) ∧
    (BluetoothDeviceInfo.default.set_device_name (List.replicate 32 7)).1
      = .ok () ∧
    (BluetoothDeviceInfo.default.set_device_name
      (List.replicate 32 7)).2.device_name_len = 32 ∧
    BluetoothDeviceInfo.default.set_pairing_key (List.replicate 65 7) =
      (.error .InvalidBluetoothDeviceInfo, BluetoothDeviceInfo.default) ∧
    (BluetoothDeviceInfo.default.set_pairing_key (List.replicate 64 7)).1
      = .ok () := by
  have h33 := (C5_set_name_and_pairing_key BluetoothDeviceInfo.default
    (List.replicate 33 7)).1 (by simp)
  have h32 := (C5_set_name_and_pairing_key BluetoothDeviceInfo.default
    (List.replicate 32 7)).2.1 (by simp)
  have h65 := (C5_set_name_and_pairing_key BluetoothDeviceInfo.default
    (List.replicate 65 7)).2.2.1 (by simp)
  have h64 := (C5_set_name_and_pairing_key BluetoothDeviceInfo.default
    (List.replicate 64 7)).2.2.2 (by simp)
  refine ⟨h33, h32.1, ?_, h65, h64.1⟩
  rw [h32.2.2.1]
  simp

/-- C6: `set_class_of_device` stores the three bytes and derives the
device type from the major class `(byte1 >> 2) & 0x1F`, mapped
1→Computer, 2→Phone, 3→Network, 4→Audio, 5→Peripheral, 6→Imaging,
7→Wearable, 8→Toy, and 0 or anything ≥ 9 →Unknown; in particular the
bytes `[0x04, 0x10, 0x24]` yield device type Audio. -/
theorem C6_set_class_of_device (d : BluetoothDeviceInfo) (c0 c1 c2 : Nat) :
    (d.set_class_of_device c0 c1 c2).class_of_device = [c0, c1, c2] ∧
    ((c1 >>> 2) &&& 0x1F = 1 →
      (d.set_class_of_device c0 c1 c2).device_type
        = BluetoothDeviceInfo.DEVICE_TYPE_COMPUTER) ∧
    ((c1 >>> 2) &&& 0x1F = 2 →
      (d.set_class_of_device c0 c1 c2).device_type
        = BluetoothDeviceInfo.DEVICE_TYPE_PHONE) ∧
    ((c1 >>> 2) &&& 0x1F = 3 →
      (d.set_class_of_device c0 c1 c2).device_type
        = BluetoothDeviceInfo.DEVICE_TYPE_NETWORK) ∧
    ((c1 >>> 2) &&& 0x1F = 4 →
      (d.set_class_of_device c0 c1 c2).device_type
        = BluetoothDeviceInfo.DEVICE_TYPE_AUDIO) ∧
    ((c1 >>> 2) &&& 0x1F = 5 →
      (d.set_class_of_device c0 c1 c2).device_type
        = BluetoothDeviceInfo.DEVICE_TYPE_PERIPHERAL) ∧
    ((c1 >>> 2) &&& 0x1F = 6 →
      (d.set_class_of_device c0 c1 c2).device_type
        = BluetoothDeviceInfo.DEVICE_TYPE_IMAGING) ∧
    ((c1 >>> 2) &&& 0x1F = 7 →
      (d.set_class_of_device c0 c1 c2).device_type
        = BluetoothDeviceInfo.DEVICE_TYPE_WEARABLE) ∧
    ((c1 >>> 2) &&& 0x1F = 8 →
      (d.set_class_of_device c0 c1 c2).device_type
        = BluetoothDeviceInfo.DEVICE_TYPE_TOY) ∧
    ((c1 >>> 2) &&& 0x1F = 0 ∨ 9 ≤ (c1 >>> 2) &&& 0x1F →
      (d.set_class_of_device c0 c1 c2).device_type
        = BluetoothDeviceInfo.DEVICE_TYPE_UNKNOWN) ∧
    (d.set_class_of_device 0x04 0x10 0x24).device_type
      = BluetoothDeviceInfo.DEVICE_TYPE_AUDIO := by
  refine ⟨rfl, ?_, ?_, ?_, ?_, ?_, ?_, ?_, ?_, ?_, rfl⟩
  on_goal 9 =>
    intro h
    rcases h with h | h
    · simp [BluetoothDeviceInfo.set_class_of_device,
        BluetoothDeviceInfo.deviceTypeOfMajorClass, h]
    · obtain ⟨m, hm⟩ : ∃ m, (c1 >>> 2) &&& 0x1F = m + 9 :=
        ⟨((c1 >>> 2) &&& 0x1F) - 9, by omega⟩
      simp only [BluetoothDeviceInfo.set_class_of_device, hm]
      rfl
  all_goals
    intro h
    simp [BluetoothDeviceInfo.set_class_of_device,
      BluetoothDeviceInfo.deviceTypeOfMajorClass, h]

/-- Witness for C6: major class 2 maps to Phone; major class 63 (all
mask bits set) maps to Unknown. -/
theorem C6_witness :
    (BluetoothDeviceInfo.default.set_class_of_device 0 8 0).device_type
      = BluetoothDeviceInfo.DEVICE_TYPE_PHONE ∧
    (BluetoothDeviceInfo.default.set_class_of_device 0 0xFC 0).device_type
      = BluetoothDeviceInfo.DEVICE_TYPE_UNKNOWN := by
  refine ⟨?_, ?_⟩
  · exact (C6_set_class_of_device BluetoothDeviceInfo.default 0 8 0).2.2.1
      (by decide)
  · exact (C6_set_class_of_device BluetoothDeviceInfo.default
      0 0xFC 0).2.2.2.2.2.2.2.2.2.1 (Or.inr (by decide))

/-- C9: `get_connection_phase` is total — a stored byte in `1..=12`
decodes to the phase with that discriminant, and `0` or any byte above
`12` decodes to `Idle`. -/
theorem C9_get_connection_phase_total (s : BluetoothConnectionState) :
    (1 ≤ s.connection_phase → s.connection_phase ≤ 12 →
      (s.get_connection_phase).toU8 = s.connection_phase) ∧
    (s.connection_phase = 0 →
      s.get_connection_phase = BluetoothConnectionPhase.Idle) ∧
    (12 < s.connection_phase →
      s.get_connection_phase = BluetoothConnectionPhase.Idle) := by
  obtain ⟨mg, dc, cf, lq, n⟩ := s
  refine ⟨?_, ?_, ?_⟩
  · intro h1 h2
    dsimp only at h1 h2 ⊢
    interval_cases n <;> rfl
  · intro h0
    dsimp only at h0
    subst h0
    rfl
  · intro h
    dsimp only at h
    obtain ⟨m, rfl⟩ : ∃ m, n = m + 13 := ⟨n - 13, by omega⟩
    rfl

/-- Witness for C9: byte 5 decodes to the discriminant-5 phase, byte 255
decodes to `Idle`. -/
theorem C9_witness :
    (BluetoothConnectionState.mk BLUETOOTH_CONNECTION_STATE_MAGIC
      BluetoothDeviceInfo.default 0 0 5).get_connection_phase.toU8 = 5 ∧
    (BluetoothConnectionState.mk BLUETOOTH_CONNECTION_STATE_MAGIC
      BluetoothDeviceInfo.default 0 0 255).get_connection_phase
      = BluetoothConnectionPhase.Idle := by
  constructor
  · exact (C9_get_connection_phase_total _).1 (by decide) (by decide)
  · exact (C9_get_connection_phase_total _).2.2 (by decide)

/-- C7: every device list reachable from the empty list via
`add_device` / `remove_device` has `len() ≤ 10`; `add_device` below the
capacity succeeds and increments the count by one, and at count 10 it
fails with `DeviceListFull` leaving the list (hence its length 10)
unchanged. -/
theorem C7_list_bounded (l : BluetoothDeviceList) (hl : ReachableList l)
    (d : BluetoothDeviceInfo) :
    l.len ≤ 10 ∧
    (l.len < 10 →
      (l.add_device d).1 = .ok () ∧ (l.add_device d).2.len = l.len + 1) ∧
    (l.len = 10 → l.add_device d = (.error .DeviceListFull, l)) := by
  obtain ⟨hlen, hcount⟩ := reachable_wf l hl
  refine ⟨hcount, ?_, ?_⟩
  · intro h
    have hc : ¬ (l.device_count ≥ l.devices.length) := by
      simp only [BluetoothDeviceList.len] at h
      omega
    constructor
    · simp [BluetoothDeviceList.add_device, hc]
    · simp [BluetoothDeviceList.add_device, hc, BluetoothDeviceList.len]
  · intro h
    have hc : l.device_count ≥ l.devices.length := by
      simp only [BluetoothDeviceList.len] at h
      omega
    simp [BluetoothDeviceList.add_device, hc]

/-- Witness for C7: the empty default list has `len ≤ 10` and a first
`add_device` succeeds with the count going to 1. -/
theorem C7_witness :
    BluetoothDeviceList.default.len ≤ 10 ∧
    (BluetoothDeviceList.default.add_device BluetoothDeviceInfo.default).1
      = .ok () ∧
    (BluetoothDeviceList.default.add_device BluetoothDeviceInfo.default).2.len
      = 1 := by
  have h := C7_list_bounded BluetoothDeviceList.default ReachableList.init
    BluetoothDeviceInfo.default
  have hs := h.2.1 (by decide)
  exact ⟨h.1, hs.1, hs.2⟩

/-- C8: `remove_device` fails with `IndexOutOfBounds` exactly when the
index is at or past the count, leaving the list unchanged; on success
the count drops by one, slots below the index are untouched, and every
surviving element formerly at position `j > index` moves to `j - 1`,
preserving the relative order of survivors. -/
theorem C8_remove_device (l : BluetoothDeviceList) (i : Nat)
    (hwf : l.device_count ≤ l.devices.length) :
    (l.device_count ≤ i →
      l.remove_device i = (.error .IndexOutOfBounds, l)) ∧
    (i < l.device_count →
      (l.remove_device i).1 = .ok () ∧
      (l.remove_device i).2.len = l.device_count - 1 ∧
      (∀ j, j < i →
        (l.remove_device i).2.devices.getD j BluetoothDeviceInfo.default =
          l.devices.getD j BluetoothDeviceInfo.default) ∧
      (∀ j, i < j → j < l.device_count →
        (l.remove_device i).2.devices.getD (j - 1) BluetoothDeviceInfo.default =
          l.devices.getD j BluetoothDeviceInfo.default)) := by
  constructor
  · intro h
    simp [BluetoothDeviceList.remove_device, h]
  · intro h
    have hc : ¬ (i ≥ l.device_count) := by omega
    have hstop : l.device_count - 1 < l.devices.length := by omega
    refine ⟨by simp [BluetoothDeviceList.remove_device, hc], ?_, ?_, ?_⟩
    · simp [BluetoothDeviceList.remove_device, hc, BluetoothDeviceList.len]
    · intro j hj
      simp only [BluetoothDeviceList.remove_device, if_neg hc]
      rw [shiftLoop_getD _ _ _ _ hstop, if_neg (by omega)]
    · intro j hij hjc
      simp only [BluetoothDeviceList.remove_device, if_neg hc]
      rw [shiftLoop_getD _ _ _ _ hstop, if_pos (by omega)]
      have hj1 : j - 1 + 1 = j := by omega
      rw [hj1]

/-- Witness for C8: removing index 1 from a concrete 3-element list
succeeds, the count drops to 2, and the former elements 0 and 2 end up
at indices 0 and 1 in that order. -/
theorem C8_witness :
    (sampleList3.remove_device 1).1 = .ok () ∧
    (sampleList3.remove_device 1).2.len = 2 ∧
    (sampleList3.remove_device 1).2.devices.getD 0 BluetoothDeviceInfo.default
      = sampleRecord 1 ∧
    (sampleList3.remove_device 1).2.devices.getD 1 BluetoothDeviceInfo.default
      = sampleRecord 3 := by
  have h := (C8_remove_device sampleList3 1 (by decide)).2 (by decide)
  refine ⟨h.1, ?_, ?_, ?_⟩
  · rw [h.2.1]
    decide
  · rw [h.2.2.1 0 (by decide)]
    decide
  · have h3 := h.2.2.2 2 (by decide) (by decide)
    rw [show sampleList3.devices.getD 2 BluetoothDeviceInfo.default
      = sampleRecord 3 from by decide] at h3
    exact h3

/-- C10: a successful `remove_device` does not clear the vacated
storage: every slot at a position at or past the new count keeps its
previous bytes — in particular slot `old_count - 1` still holds a copy
of the former last element — while those slots are unreachable through
`get_device`, which is bounded by the count. -/
theorem C10_remove_device_frame (l : BluetoothDeviceList) (i : Nat)
    (hwf : l.device_count ≤ l.devices.length) (hi : i < l.device_count) :
    (∀ j, l.device_count - 1 ≤ j →
      (l.remove_device i).2.devices.getD j BluetoothDeviceInfo.default =
        l.devices.getD j BluetoothDeviceInfo.default) ∧
    ((l.remove_device i).2.devices.getD (l.device_count - 1)
        BluetoothDeviceInfo.default =
      l.devices.getD (l.device_count - 1) BluetoothDeviceInfo.default) ∧
    (∀ j, l.device_count - 1 ≤ j →
      (l.remove_device i).2.get_device j = .error .IndexOutOfBounds) ∧
    (l.remove_device i).2.len = l.device_count - 1 := by
  have hc : ¬ (i ≥ l.device_count) := by omega
  have hstop : l.device_count - 1 < l.devices.length := by omega
  have huntouched : ∀ j, l.device_count - 1 ≤ j →
      (l.remove_device i).2.devices.getD j BluetoothDeviceInfo.default =
        l.devices.getD j BluetoothDeviceInfo.default := by
    intro j hj
    simp only [BluetoothDeviceList.remove_device, if_neg hc]
    rw [shiftLoop_getD _ _ _ _ hstop, if_neg (by omega)]
  refine ⟨huntouched, huntouched _ (Nat.le_refl _), ?_, ?_⟩
  · intro j hj
    simp only [BluetoothDeviceList.remove_device, if_neg hc,
      BluetoothDeviceList.get_device]
    rw [if_pos hj]
  · simp [BluetoothDeviceList.remove_device, hc, BluetoothDeviceList.len]

/-- Witness for C10: after removing index 1 from the concrete 3-element
list, the raw slot at position 2 still holds the former last element,
while `get_device 2` reports out of bounds. -/
theorem C10_witness :
    (sampleList3.remove_device 1).2.devices.getD 2 BluetoothDeviceInfo.default
      = sampleRecord 3 ∧
    (sampleList3.remove_device 1).2.get_device 2 = .error .IndexOutOfBounds := by
  have h := C10_remove_device_frame sampleList3 1 (by decide) (by decide)
  constructor
  · have h1 := h.1 2 (by decide)
    rw [show sampleList3.devices.getD 2 BluetoothDeviceInfo.default
      = sampleRecord 3 from by decide] at h1
    exact h1
  · exact h.2.2.1 2 (by decide)

end Renik
